import Mathlib

/-
Verification of streamline-control (src/streamline/Application.py), a GTK
application bootstrapper.  The embedding models the module-level root logger
obtained by logging.getLogger(), the Application class deriving from
Gtk.Application, and the MainWindow collaborator.  Python object identity is
modelled by Nat tokens handed out by a fresh-identity counter threaded through
the process state.
-/

namespace Streamline

/-- Output streams a logging StreamHandler can target (sys.stdout, sys.stderr). -/
inductive OutStream where
  | stdout
  | stderr
deriving DecidableEq

/-- Numeric value of logging.DEBUG in the Python logging module. -/
def DEBUG : Nat := 10

/-- Numeric value of logging.NOTSET, the level a fresh handler starts with. -/
def NOTSET : Nat := 0

/-- A logging.StreamHandler: an output sink with its own severity threshold. -/
structure StreamHandler where
  target : OutStream
  level : Nat
deriving DecidableEq

/-- StreamHandler(stream) constructs a handler on the given stream whose own
level starts at NOTSET. -/
def StreamHandler.new (target : OutStream) : StreamHandler :=
  { target := target, level := NOTSET }

/-- handler.setLevel(lvl). -/
def StreamHandler.setLevel (h : StreamHandler) (lvl : Nat) : StreamHandler :=
  { h with level := lvl }

/-- The process-wide (root) logger returned by logging.getLogger() at module
level: its minimum severity threshold and the list of attached handlers. -/
structure Logger where
  level : Nat
  handlers : List StreamHandler
deriving DecidableEq

/-- logger.setLevel(lvl). -/
def Logger.setLevel (lg : Logger) (lvl : Nat) : Logger :=
  { lg with level := lvl }

/-- logger.addHandler(h).  Python appends h unless the very same object is
already attached; the membership test is object identity, and do_startup
always passes a handler constructed on the same line, so on this code path the
append is unconditional. -/
def Logger.addHandler (lg : Logger) (h : StreamHandler) : Logger :=
  { lg with handlers := lg.handlers ++ [h] }

/-- Modelled from the spec: the class streamline.MainWindow, whose source file
is not part of this fragment.  Per the spec it is an external collaborator
consumed via a single construction call accepting an application
back-reference, and a method (show_all) that reveals the window and all its
children.  win_id is the object identity of the window instance, application
the identity token of the owning Application, shown the visibility state of
the window together with all its contained widgets. -/
structure MainWindow where
  win_id : Nat
  application : Nat
  shown : Bool
deriving DecidableEq

/-- Modelled from the spec: MainWindow(application=app) constructs a fresh,
not-yet-shown window holding the application back-reference. -/
def MainWindow.new (fresh : Nat) (app_ref : Nat) : MainWindow :=
  { win_id := fresh, application := app_ref, shown := false }

/-- Modelled from the spec: window.show_all() makes the window and all its
contained widgets visible. -/
def MainWindow.show_all (w : MainWindow) : MainWindow :=
  { w with shown := true }

/-- The streamline Application object: its object identity token (`self`), the
application-id property set by the chained Gtk.Application constructor, and
the main_window attribute set in __init__. -/
structure Application where
  self_id : Nat
  application_id : String
  main_window : Option MainWindow
deriving DecidableEq

/-- Process-wide mutable state surrounding an Application: the root logger,
the flag recording that Gtk.Application.quit() was asked to end the event
loop, and the fresh-identity counter for newly constructed objects. -/
structure World where
  logger : Logger
  quit_requested : Bool
  next_id : Nat
deriving DecidableEq

/-- Application.__init__(self, *args, **kwargs): calls
super().__init__(*args, application_id="org.theorangealliance.streamline",
**kwargs) and then sets self.main_window = None.  Keyword arguments are
modelled as key/value pairs; if **kwargs itself contains an application_id
key, expanding it against the explicit keyword makes the super().__init__
call raise TypeError before any attribute is set.  Positional *args and
further GObject properties carried by **kwargs are opaque to this fragment. -/
def Application.new (w : World) (kwargs : List (String × String)) :
    Except String (Application × World) :=
  if kwargs.any (fun kv => kv.1 == "application_id") then
    Except.error "TypeError: __init__ got multiple values for keyword argument application_id"
  else
    Except.ok
      ({ self_id := w.next_id,
         application_id := "org.theorangealliance.streamline",
         main_window := none },
       { w with next_id := w.next_id + 1 })

/-- Application.do_startup: chains to Gtk.Application.do_startup (toolkit
bookkeeping with no state visible in this fragment), then sets the root logger
to DEBUG, constructs a StreamHandler on sys.stdout, sets it to DEBUG and
attaches it.  The commented-out action/menu scaffolding in the source is dead
code and is not modelled. -/
def Application.do_startup (app : Application) (w : World) : Application × World :=
  let lg := w.logger.setLevel DEBUG
  let ch := (StreamHandler.new OutStream.stdout).setLevel DEBUG
  let lg := lg.addHandler ch
  (app, { w with logger := lg })

/-- Application.do_activate: self.main_window = MainWindow(application=self);
self.main_window.show_all().  The construction allocates a fresh object
identity; show_all mutates the object main_window now refers to. -/
def Application.do_activate (app : Application) (w : World) : Application × World :=
  let win := MainWindow.new w.next_id app.self_id
  ({ app with main_window := some win.show_all },
   { w with next_id := w.next_id + 1 })

/-- Application.on_quit: calls self.quit(), the toolkit request to terminate
the event loop.  It touches nothing else and has no failing path. -/
def Application.on_quit (app : Application) (w : World) : Application × World :=
  (app, { w with quit_requested := true })

/-- One lifecycle hook invocation dispatched by the toolkit. -/
inductive LifecycleEvent where
  | startup
  | activate
  | quit
deriving DecidableEq

/-- One Application together with the surrounding process state. -/
structure ProcState where
  app : Application
  world : World
deriving DecidableEq

/-- Dispatch of a single lifecycle hook to the Application. -/
def step (s : ProcState) : LifecycleEvent → ProcState
  | LifecycleEvent.startup =>
      let r := s.app.do_startup s.world
      ⟨r.1, r.2⟩
  | LifecycleEvent.activate =>
      let r := s.app.do_activate s.world
      ⟨r.1, r.2⟩
  | LifecycleEvent.quit =>
      let r := s.app.on_quit s.world
      ⟨r.1, r.2⟩

/-- Run a sequence of lifecycle hook invocations. -/
def run (s : ProcState) : List LifecycleEvent → ProcState
  | [] => s
  | e :: es => run (step s e) es

/-- Number of MainWindow constructions performed along a run.  Object
identities are allocated only by MainWindow.new during a run, so the
difference of the fresh-identity counter counts the windows created. -/
def windowsCreated (s : ProcState) (es : List LifecycleEvent) : Nat :=
  (run s es).world.next_id - s.world.next_id

/-- Iterated do_startup: n invocations in one process. -/
def iterStartup (app : Application) (w : World) : Nat → Application × World
  | 0 => (app, w)
  | n + 1 =>
      let r := iterStartup app w n
      r.1.do_startup r.2

end Streamline

namespace Streamline

/-- Claim C1: after do_startup() returns, the root logger's minimum severity
threshold is DEBUG and at least one attached stream handler targets stdout and
is itself thresholded at DEBUG. -/
theorem do_startup_configures_logging (app : Application) (w : World) :
    ((app.do_startup w).2.logger).level = DEBUG ∧
      ∃ h ∈ ((app.do_startup w).2.logger).handlers,
        h.target = OutStream.stdout ∧ h.level = DEBUG := by
  refine ⟨rfl, ⟨(StreamHandler.new OutStream.stdout).setLevel DEBUG, ?_, rfl, rfl⟩⟩
  simp [Application.do_startup, Logger.addHandler, Logger.setLevel]

/-- Claim C2: for an Application on which do_startup has completed, a single
do_activate() leaves main_window non-absent, referring to a MainWindow whose
application back-reference is this Application and which, together with all
its children, has been shown. -/
theorem do_activate_shows_window (app : Application) (w : World) :
    ∃ win,
      (run ⟨app, w⟩ [LifecycleEvent.startup, LifecycleEvent.activate]).app.main_window
        = some win ∧
      win.application = app.self_id ∧ win.shown = true := by
  refine ⟨MainWindow.new w.next_id app.self_id |>.show_all, ?_, rfl, rfl⟩
  rfl

/-- Claim C3: a second do_activate() unconditionally replaces main_window with
a newly created MainWindow (a distinct object identity), overwriting the prior
value regardless of what main_window held before. -/
theorem do_activate_overwrites_window (app : Application) (w : World) :
    (step ⟨app, w⟩ LifecycleEvent.activate).app.main_window
        = some ⟨w.next_id, app.self_id, true⟩ ∧
    (step (step ⟨app, w⟩ LifecycleEvent.activate) LifecycleEvent.activate).app.main_window
        = some ⟨w.next_id + 1, app.self_id, true⟩ ∧
    (step (step ⟨app, w⟩ LifecycleEvent.activate) LifecycleEvent.activate).app.main_window
        ≠ (step ⟨app, w⟩ LifecycleEvent.activate).app.main_window := by
  refine ⟨rfl, rfl, ?_⟩
  intro hcontra
  have h1 : (step ⟨app, w⟩ LifecycleEvent.activate).app.main_window
      = some ⟨w.next_id, app.self_id, true⟩ := rfl
  have h2 : (step (step ⟨app, w⟩ LifecycleEvent.activate) LifecycleEvent.activate).app.main_window
      = some ⟨w.next_id + 1, app.self_id, true⟩ := rfl
  rw [h1, h2] at hcontra
  have := Option.some.inj hcontra
  have hid : w.next_id + 1 = w.next_id := congrArg MainWindow.win_id this
  omega

/-- Claim C4 counterexample: it is not true that every sequence of lifecycle
calls creates at most one MainWindow per Application: two activations
construct two windows. -/
theorem two_activations_two_windows :
    ¬ (∀ (s : ProcState) (es : List LifecycleEvent), windowsCreated s es ≤ 1) := by
  intro hAll
  have h := hAll
    ⟨⟨0, "org.theorangealliance.streamline", none⟩, ⟨⟨30, []⟩, false, 1⟩⟩
    [LifecycleEvent.startup, LifecycleEvent.activate, LifecycleEvent.activate]
  revert h
  decide

/-- Claim C4 (amended): exactly one MainWindow is constructed per do_activate
invocation: along any sequence of lifecycle calls, the number of MainWindows
created equals the number of activate events, so at most one window is created
when do_activate runs at most once. -/
theorem windowsCreated_eq_activations (s : ProcState) (es : List LifecycleEvent) :
    windowsCreated s es = es.count LifecycleEvent.activate := by
  suffices hgen : ∀ (l : List LifecycleEvent) (t : ProcState),
      (run t l).world.next_id = t.world.next_id + l.count LifecycleEvent.activate by
    unfold windowsCreated
    rw [hgen es s]
    omega
  intro l
  induction l with
  | nil => intro t; simp [run]
  | cons e es ih =>
    intro t
    have hstep : (step t e).world.next_id
        = t.world.next_id + (if e = LifecycleEvent.activate then 1 else 0) := by
      cases e <;>
        simp [step, Application.do_startup, Application.do_activate,
          Application.on_quit, Logger.setLevel, Logger.addHandler]
    rw [run, ih, hstep]
    cases e <;>
      simp [List.count_cons, Nat.add_comm, Nat.add_left_comm, Nat.add_assoc]

/-- Claim C5: on_quit() requests termination of the event loop and performs no
cleanup: the Application, in particular its main_window reference, is
unchanged, whether or not do_activate ever ran. -/
theorem on_quit_requests_termination (app : Application) (w : World) :
    ((app.on_quit w).2).quit_requested = true ∧
      (app.on_quit w).1 = app ∧
      ((app.on_quit w).1).main_window = app.main_window :=
  ⟨rfl, rfl, rfl⟩

/-- Claim C6: do_startup creates no window: a freshly constructed Application
still has main_window = none immediately after do_startup returns. -/
theorem do_startup_no_window (w w' rest : World) (kwargs : List (String × String))
    (app : Application)
    (hc : Application.new w kwargs = Except.ok (app, rest)) :
    ((app.do_startup w').1).main_window = none := by
  have hmw : app.main_window = none := by
    unfold Application.new at hc
    split at hc
    · exact Except.noConfusion hc
    · injection hc with hpair
      injection hpair with happ hrest
      rw [← happ]
  exact hmw

/-- Witness for the claim C6 theorem at a concrete fresh construction. -/
theorem do_startup_no_window_test :
    Application.new ⟨⟨30, []⟩, false, 0⟩ [] =
      Except.ok (⟨0, "org.theorangealliance.streamline", none⟩, ⟨⟨30, []⟩, false, 1⟩) ∧
    (((⟨0, "org.theorangealliance.streamline", none⟩ : Application).do_startup
        ⟨⟨30, []⟩, false, 1⟩).1).main_window = none :=
  ⟨rfl, do_startup_no_window ⟨⟨30, []⟩, false, 0⟩ ⟨⟨30, []⟩, false, 1⟩
    ⟨⟨30, []⟩, false, 1⟩ [] ⟨0, "org.theorangealliance.streamline", none⟩ rfl⟩

/-- Claim C7 counterexample: construction does not succeed for ALL pass-through
construction arguments: passing an application_id keyword makes it raise
instead of yielding an Application. -/
theorem construction_not_total :
    ¬ (∀ (w : World) (kwargs : List (String × String)),
        ∃ a r, Application.new w kwargs = Except.ok (a, r) ∧
          a.main_window = none ∧
          a.application_id = "org.theorangealliance.streamline") := by
  intro hAll
  obtain ⟨a, r, heq, -, -⟩ :=
    hAll ⟨⟨30, []⟩, false, 0⟩ [("application_id", "x")]
  have hx : Application.new ⟨⟨30, []⟩, false, 0⟩ [("application_id", "x")] =
      Except.error
        "TypeError: __init__ got multiple values for keyword argument application_id" := rfl
  rw [hx] at heq
  exact Except.noConfusion heq

/-- Claim C7 (amended): for all pass-through construction arguments that do not
carry an application_id keyword, construction yields an Application whose
main_window is None and whose application identifier is the fixed string
org.theorangealliance.streamline. -/
theorem construction_initial_state (w : World) (kwargs : List (String × String))
    (hfree : kwargs.any (fun kv => kv.1 == "application_id") = false) :
    ∃ a r, Application.new w kwargs = Except.ok (a, r) ∧
      a.main_window = none ∧
      a.application_id = "org.theorangealliance.streamline" := by
  refine ⟨⟨w.next_id, "org.theorangealliance.streamline", none⟩,
    ⟨w.logger, w.quit_requested, w.next_id + 1⟩, ?_, rfl, rfl⟩
  simp [Application.new, hfree]

/-- Witness for the claim C7 amended theorem at a concrete keyword list. -/
theorem construction_initial_state_test :
    ([("flags", "0")] : List (String × String)).any
        (fun kv => kv.1 == "application_id") = false ∧
    ∃ a r, Application.new ⟨⟨30, []⟩, false, 0⟩ [("flags", "0")] = Except.ok (a, r) ∧
      a.main_window = none ∧
      a.application_id = "org.theorangealliance.streamline" :=
  ⟨by decide, construction_initial_state ⟨⟨30, []⟩, false, 0⟩ [("flags", "0")] (by decide)⟩

/-- Claim C8: construction is order-independent of startup: the Application
value produced by construction (and whether it succeeds) is the same whether
or not do_startup has run in the process beforehand, since __init__ reads none
of the state do_startup establishes. -/
theorem construction_order_independent (app0 : Application) (w : World)
    (kwargs : List (String × String)) :
    Except.map Prod.fst (Application.new (app0.do_startup w).2 kwargs)
      = Except.map Prod.fst (Application.new w kwargs) := by
  cases hc : kwargs.any (fun kv => kv.1 == "application_id") <;>
    simp [Application.new, Application.do_startup, hc, Except.map]

/-- Auxiliary: countP over a replicated list whose element satisfies the
predicate. -/
theorem countP_replicate_of_pos {α : Type} (p : α → Bool) (a : α) (ha : p a = true)
    (n : Nat) : (List.replicate n a).countP p = n := by
  induction n with
  | zero => rfl
  | succ n ih => simp [List.replicate_succ, List.countP_cons, ih, ha]

/-- Claim C9: do_startup is not idempotent for logging sinks: each call appends
one fresh stdout handler thresholded at DEBUG, so after n calls the root
logger holds its initial handlers followed by n such handlers, and the count
of stdout DEBUG handlers has grown by exactly n. -/
theorem do_startup_appends_handler_each_call (app : Application) (w : World) (n : Nat) :
    (iterStartup app w n).2.logger.handlers
      = w.logger.handlers
        ++ List.replicate n ((StreamHandler.new OutStream.stdout).setLevel DEBUG) ∧
    ((iterStartup app w n).2.logger.handlers).countP
        (fun h => h.target == OutStream.stdout && h.level == DEBUG)
      = (w.logger.handlers).countP
          (fun h => h.target == OutStream.stdout && h.level == DEBUG) + n := by
  have hmain : ∀ m : Nat, (iterStartup app w m).2.logger.handlers
      = w.logger.handlers
        ++ List.replicate m ((StreamHandler.new OutStream.stdout).setLevel DEBUG) := by
    intro m
    induction m with
    | zero => simp [iterStartup]
    | succ k ih =>
      simp only [iterStartup, Application.do_startup, Logger.addHandler, Logger.setLevel]
      rw [ih, List.replicate_succ' , List.append_assoc]
  refine ⟨hmain n, ?_⟩
  rw [hmain n, List.countP_append,
    countP_replicate_of_pos _ _ (by decide) n]

/-- Claim C10: constructing an Application with an explicit application_id
keyword argument raises a duplicate-keyword TypeError rather than overriding
the fixed identifier. -/
theorem application_id_kwarg_raises (w : World) (kwargs : List (String × String))
    (hdup : kwargs.any (fun kv => kv.1 == "application_id") = true) :
    Application.new w kwargs =
      Except.error
        "TypeError: __init__ got multiple values for keyword argument application_id" := by
  simp [Application.new, hdup]

/-- Witness for the claim C10 theorem at a concrete keyword list. -/
theorem application_id_kwarg_raises_test :
    ([("application_id", "y")] : List (String × String)).any
        (fun kv => kv.1 == "application_id") = true ∧
    Application.new ⟨⟨30, []⟩, false, 0⟩ [("application_id", "y")] =
      Except.error
        "TypeError: __init__ got multiple values for keyword argument application_id" :=
  ⟨by decide, application_id_kwarg_raises ⟨⟨30, []⟩, false, 0⟩
    [("application_id", "y")] (by decide)⟩

end Streamline
